import Mathlib

/-!
Shallow embedding of the NYC Housing Connect lottery bot
(`housing_connect_bot.py`, `apply_all_sales.py`, `get_lottery_ids.py`).

Browser-driver reads are modelled as explicit input data; driver calls that
may raise an exception are modelled with `Except Unit`; Python regular
expression searches are modelled by leftmost-position scans with the
deterministic matchers of the concrete patterns appearing in the source
(each pattern there is free of backtracking because its character classes
are pairwise disjoint). `\s` and `\d` are modelled over ASCII via
`Char.isWhitespace` and `Char.isDigit`.
-/

namespace HousingConnect

/-- ASCII lower-casing of one character, modelling `re.IGNORECASE` literal
matching and `str.lower()` on the characters in play. -/
def charLower (c : Char) : Char :=
  if 'A' ≤ c ∧ c ≤ 'Z' then Char.ofNat (c.toNat + 32) else c

/-- Model of Python `str.lower()`. -/
def pyLower (s : String) : String := ⟨s.data.map charLower⟩

/-- Model of Python `str.strip()`: drop whitespace from both ends. -/
def pyStrip (s : String) : String :=
  ⟨((s.data.dropWhile Char.isWhitespace).reverse.dropWhile Char.isWhitespace).reverse⟩

/-- Model of Python `needle in hay` on lists of characters. -/
def listIn (needle : List Char) : List Char → Bool
  | [] => needle.isPrefixOf []
  | c :: rest => needle.isPrefixOf (c :: rest) || listIn needle rest

/-- Model of Python substring containment `needle in hay` on strings. -/
def pyIn (needle hay : String) : Bool := listIn needle.data hay.data

/-- Leftmost-search driver: try the matcher at every start position, left to
right, exactly as `re.search` resolves the leftmost match. -/
def scanFirst {α : Type} (f : List Char → Option α) : List Char → Option α
  | [] => f []
  | c :: rest =>
    match f (c :: rest) with
    | some r => some r
    | none => scanFirst f rest

/-- Case-sensitive literal matching: if `pat` begins `l`, return the rest. -/
def stripLit : List Char → List Char → Option (List Char)
  | [], l => some l
  | _ :: _, [] => none
  | p :: ps, c :: cs => if p = c then stripLit ps cs else none

/-- ASCII-case-insensitive literal matching: if `pat` begins `l` up to case,
return the rest. -/
def stripCI : List Char → List Char → Option (List Char)
  | [], l => some l
  | _ :: _, [] => none
  | p :: ps, c :: cs => if charLower p = charLower c then stripCI ps cs else none

/-- Value of a digit string, as Python `int` applied to decimal digits. -/
def digitsToNat (l : List Char) : Nat :=
  l.foldl (fun a c => a * 10 + (c.toNat - 48)) 0

/-- Matcher at one position for `re.search(r'/photos/(\d+)\.', src)`:
the literal `/photos/`, then one or more digits (group 1), then a dot. -/
def photosMatchAt (l : List Char) : Option String :=
  match stripLit "/photos/".data l with
  | none => none
  | some r =>
    let ds := r.takeWhile Char.isDigit
    if ds.isEmpty then none
    else
      match r.dropWhile Char.isDigit with
      | '.' :: _ => some ⟨ds⟩
      | _ => none

/-- Group 1 of the leftmost match of `r'/photos/(\d+)\.'` in `src`. -/
def photosId (src : String) : Option String := scanFirst photosMatchAt src.data

/-- Matcher at one position for `re.search(r'(\d+)\s*Unit', text)`. -/
def unitsMatchAt (l : List Char) : Option Nat :=
  let ds := l.takeWhile Char.isDigit
  if ds.isEmpty then none
  else
    match stripLit "Unit".data ((l.dropWhile Char.isDigit).dropWhile Char.isWhitespace) with
    | some _ => some (digitsToNat ds)
    | none => none

/-- Group 1 of the leftmost match of `r'(\d+)\s*Unit'` in `text`. -/
def searchUnits (s : String) : Option Nat := scanFirst unitsMatchAt s.data

/-- Matcher at one position for `re.search(r'(\d+)\s*days?', text, re.IGNORECASE)`;
the optional trailing `s` cannot affect the match or group 1. -/
def daysMatchAt (l : List Char) : Option Nat :=
  let ds := l.takeWhile Char.isDigit
  if ds.isEmpty then none
  else
    match stripCI "day".data ((l.dropWhile Char.isDigit).dropWhile Char.isWhitespace) with
    | some _ => some (digitsToNat ds)
    | none => none

/-- Group 1 of the leftmost match of `r'(\d+)\s*days?'` in `text`. -/
def searchDays (s : String) : Option Nat := scanFirst daysMatchAt s.data

/-- Matcher at one position for `re.search(r'(\d+)\s*/\s*(\d+)', text)`,
returning both groups. -/
def pagesMatchAt (l : List Char) : Option (Nat × Nat) :=
  let d1 := l.takeWhile Char.isDigit
  if d1.isEmpty then none
  else
    match (l.dropWhile Char.isDigit).dropWhile Char.isWhitespace with
    | '/' :: r2 =>
      let d2 := (r2.dropWhile Char.isWhitespace).takeWhile Char.isDigit
      if d2.isEmpty then none else some (digitsToNat d1, digitsToNat d2)
    | _ => none

/-- Leftmost match of `r'(\d+)\s*/\s*(\d+)'` in `text`, both groups. -/
def searchPages (s : String) : Option (Nat × Nat) := scanFirst pagesMatchAt s.data

/-- Character class `[\d,]` of the income pattern. -/
def isDigitComma (c : Char) : Bool := c.isDigit || c = ','

/-- Matcher at one position for
`re.search(r'Eligible Income:?\s*\$?([\d,]+)\s*-\s*\$?([\d,]+)', text, re.IGNORECASE)`,
returning the two raw groups. -/
def incomeMatchAt (l : List Char) : Option (List Char × List Char) :=
  match stripCI "Eligible Income".data l with
  | none => none
  | some r1 =>
    let r2 := match r1 with | ':' :: t => t | t => t
    let r4 := match r2.dropWhile Char.isWhitespace with | '$' :: t => t | t => t
    let g1 := r4.takeWhile isDigitComma
    if g1.isEmpty then none
    else
      match (r4.dropWhile isDigitComma).dropWhile Char.isWhitespace with
      | '-' :: r7 =>
        let r9 := match r7.dropWhile Char.isWhitespace with | '$' :: t => t | t => t
        let g2 := r9.takeWhile isDigitComma
        if g2.isEmpty then none else some (g1, g2)
      | _ => none

/-- Leftmost match of the eligible-income pattern, raw groups. -/
def searchIncome (s : String) : Option (List Char × List Char) :=
  scanFirst incomeMatchAt s.data

/-- Model of `int(group.replace(',', ''))` on a `[\d,]+` group: `none` models
the `ValueError` raised by `int('')` when the group consists of commas only. -/
def groupToInt (g : List Char) : Option Nat :=
  let ds := g.filter (fun c => c ≠ ',')
  if ds.isEmpty then none else some (digitsToNat ds)

/-- Mirror of `HousingConnectBot._parse_income_range`; `Except.error` models a
`ValueError` escaping the function. -/
def parse_income_range (text : String) : Except Unit (Option Nat × Option Nat) :=
  match searchIncome text with
  | some (g1, g2) =>
    match groupToInt g1, groupToInt g2 with
    | some mn, some mx => .ok (some mn, some mx)
    | _, _ => .error ()
  | none => .ok (none, none)

/-- Insert thousands separators into a reversed digit list, as Python's
format specifier `,` groups digits from the right; `n` counts the position
of the current character inside its group of three. -/
def groupRevAux : List Char → Nat → List Char
  | [], _ => []
  | c :: rest, n =>
    if n = 4 then ',' :: c :: groupRevAux rest 2
    else c :: groupRevAux rest (n + 1)

/-- Model of the Python format `f"{n:,}"` for naturals. -/
def pyCommaNat (n : Nat) : String :=
  ⟨(groupRevAux (Nat.toDigits 10 n).reverse 1).reverse⟩

instance {ε α : Type} [DecidableEq ε] [DecidableEq α] : DecidableEq (Except ε α) := fun a b =>
  match a, b with
  | .error x, .error y =>
    if h : x = y then isTrue (h ▸ rfl)
    else isFalse (by intro hc; injection hc with h2; exact h h2)
  | .error _, .ok _ => isFalse (by intro hc; exact Except.noConfusion hc)
  | .ok _, .error _ => isFalse (by intro hc; exact Except.noConfusion hc)
  | .ok x, .ok y =>
    if h : x = y then isTrue (h ▸ rfl)
    else isFalse (by intro hc; injection hc with h2; exact h h2)

/-- Model of the Python format `f"{i:,}"` for ints. -/
def pyCommaInt (i : Int) : String :=
  if i < 0 then "-" ++ pyCommaNat i.natAbs else pyCommaNat i.natAbs

/-- Mirror of the `LotteryInfo` dataclass. -/
structure LotteryInfo where
  id : String
  title : String
  lottery_type : String
  location : Option String := none
  units_available : Option Nat := none
  days_until_closing : Option Nat := none
  min_income : Option Nat := none
  max_income : Option Nat := none
  is_applied : Bool := false
  url : Option String := none
deriving DecidableEq

/-- Mirror of `HousingConnectBot.BASE_URL`. -/
def BASE_URL : String := "https://housingconnect.nyc.gov/PublicWeb"

/-- Result of a driver call that may raise, returning an element-or-`None`
(or a text/attribute value that may be `None`). -/
abbrev Query (α : Type) := Except Unit (Option α)

/-- One lottery card as seen by `_parse_lottery_card`: for each selector, the
outcome of `query_selector` (may raise / absent / present) and, when the
element is present, of its `text_content()` or `get_attribute('src')` read
(may raise / return `None` / return a string). -/
structure Card where
  img : Query (Query String)
  titleEl : Query (Query String)
  locationEl : Query (Query String)
  unitsEl : Query (Query String)
  closingEl : Query (Query String)
  appliedBtn : Query (Query String)

/-- Identifier step of `_parse_lottery_card`: query the card image, read its
`src` attribute when present, and search it for the photos pattern. -/
def extractId (q : Query (Query String)) : Except Unit (Option String) :=
  match q with
  | .error e => .error e
  | .ok none => .ok none
  | .ok (some attr) =>
    match attr with
    | .error e => .error e
    | .ok src => .ok (src.bind photosId)

/-- Title step of `_parse_lottery_card`: `"Unknown"` when the element is
absent, otherwise the stripped text; `.strip()` on a `None` text raises. -/
def extractTitle (q : Query (Query String)) : Except Unit String :=
  match q with
  | .error e => .error e
  | .ok none => .ok "Unknown"
  | .ok (some t) =>
    match t with
    | .error e => .error e
    | .ok none => .error ()
    | .ok (some s) => .ok (pyStrip s)

/-- Location step of `_parse_lottery_card`. -/
def extractLocation (q : Query (Query String)) : Except Unit (Option String) :=
  match q with
  | .error e => .error e
  | .ok none => .ok none
  | .ok (some t) =>
    match t with
    | .error e => .error e
    | .ok none => .error ()
    | .ok (some s) => .ok (some (pyStrip s))

/-- Units step of `_parse_lottery_card`; `re.search` on a `None` text raises. -/
def extractUnits (q : Query (Query String)) : Except Unit (Option Nat) :=
  match q with
  | .error e => .error e
  | .ok none => .ok none
  | .ok (some t) =>
    match t with
    | .error e => .error e
    | .ok none => .error ()
    | .ok (some s) => .ok (searchUnits s)

/-- Days-until-closing step of `_parse_lottery_card`. -/
def extractDays (q : Query (Query String)) : Except Unit (Option Nat) :=
  match q with
  | .error e => .error e
  | .ok none => .ok none
  | .ok (some t) =>
    match t with
    | .error e => .error e
    | .ok none => .error ()
    | .ok (some s) => .ok (searchDays s)

/-- Applied-flag step of `_parse_lottery_card`: the grey button's stripped
text containing `Applied`. -/
def extractApplied (q : Query (Query String)) : Except Unit Bool :=
  match q with
  | .error e => .error e
  | .ok none => .ok false
  | .ok (some t) =>
    match t with
    | .error e => .error e
    | .ok none => .error ()
    | .ok (some s) => .ok (pyIn "Applied" (pyStrip s))

/-- Body of `_parse_lottery_card` before the enclosing `try`/`except`:
`Except.error` models an exception raised while parsing the card (including
`.strip()` or `re.search` applied to a `None` text value). -/
def parseCardBody (lottery_type : String) (card : Card) :
    Except Unit (Option LotteryInfo) := do
  let lotteryId ← extractId card.img
  let title ← extractTitle card.titleEl
  let location ← extractLocation card.locationEl
  let units ← extractUnits card.unitsEl
  let days ← extractDays card.closingEl
  let isApplied ← extractApplied card.appliedBtn
  match lotteryId with
  | some lid =>
    pure (some { id := lid, title := title, lottery_type := lottery_type,
                 location := location, units_available := units,
                 days_until_closing := days, is_applied := isApplied,
                 url := some (BASE_URL ++ "/lottery-details/" ++ lid) })
  | none => pure none

/-- Mirror of `_parse_lottery_card`: any exception raised by the body is
caught and the card yields no record. -/
def parse_lottery_card (lottery_type : String) (card : Card) : Option LotteryInfo :=
  match parseCardBody lottery_type card with
  | .error _ => none
  | .ok r => r

/-- Mirror of `_get_lotteries_from_current_page`, the page given by its list
of card elements: cards whose parse yields a record are kept in order. -/
def get_lotteries_from_current_page (lottery_type : String) (cards : List Card) :
    List LotteryInfo :=
  cards.filterMap (parse_lottery_card lottery_type)

/-- Outcome of the pagination query in `_get_total_pages`: the query may
raise, find nothing, or find an element whose `text_content()` is `None` or
a string. -/
inductive PaginationQuery
  | raises
  | absent
  | content (t : Option String)
deriving DecidableEq

/-- Mirror of `_get_total_pages`; `re.search` applied to a `None` text raises
`TypeError`, which the `except` clause turns into the default `1`. -/
def get_total_pages (q : PaginationQuery) : Nat :=
  match q with
  | .raises => 1
  | .absent => 1
  | .content none => 1
  | .content (some s) =>
    match searchPages s with
    | some (_, y) => y
    | none => 1

/-- Inner loop of `get_lottery_ids`: append the lotteries whose id is not in
`seen_ids` yet, threading the updated set. -/
def addNewLotteries : List LotteryInfo → List String → List LotteryInfo × List String
  | [], seen => ([], seen)
  | l :: ls, seen =>
    if l.id ∈ seen then addNewLotteries ls seen
    else
      let p := addNewLotteries ls (l.id :: seen)
      (l :: p.1, p.2)

/-- Page loop of `get_lottery_ids`, each page given by its card elements. -/
def collectPages (lottery_type : String) :
    List (List Card) → List String → List LotteryInfo
  | [], _ => []
  | p :: ps, seen =>
    let step := addNewLotteries (get_lotteries_from_current_page lottery_type p) seen
    step.1 ++ collectPages lottery_type ps step.2

/-- Mirror of `get_lottery_ids` over the per-page card-parse results. -/
def get_lottery_ids (lottery_type : String) (pages : List (List Card)) :
    List LotteryInfo :=
  collectPages lottery_type pages []

/-- Driver actions performed by `login`, in order. -/
inductive LoginAction
  | gotoBase
  | clickLoginLink
  | fillEmail
  | fillPassword
  | clickSubmit
  | pressEnter
deriving DecidableEq

/-- Observable outcome of `login`: the returned boolean, or an exception
escaping the method. -/
inductive LoginResult
  | raised
  | returned (b : Bool)
deriving DecidableEq

/-- Driver responses seen by `login`, step by step: `Except.error` models the
call raising (navigation timeout, closed page, and the like); a `Bool` payload
models element-found versus `None`. -/
structure LoginWorld where
  gotoBase : Except Unit Unit
  loginLink : Except Unit Bool
  clickLoginLink : Except Unit Unit
  waitEmail : Except Unit Bool
  queryPassword : Except Unit Bool
  fillEmail : Except Unit Unit
  fillPassword : Except Unit Unit
  querySubmit : Except Unit Bool
  clickSubmit : Except Unit Unit
  pressEnter : Except Unit Unit
  finalUrl : String

/-- Model of the Python truthiness test `not self.username`: the variable is
unset or the empty string. -/
def pyFalsy (s : Option String) : Bool := s.getD "" = ""

/-- Success condition checked at the end of `login`:
`'housingconnect.nyc.gov/PublicWeb' in current_url and 'id4/account/login' not in current_url`. -/
def loginUrlOk (url : String) : Bool :=
  pyIn "housingconnect.nyc.gov/PublicWeb" url && !(pyIn "id4/account/login" url)

/-- Body of the `try` block of `login`: every raise inside it is caught by
the enclosing `except` and turned into `False`. -/
def loginTryBody (w : LoginWorld) (acts : List LoginAction) :
    LoginResult × List LoginAction :=
  match w.loginLink with
  | .error _ => (.returned false, acts)
  | .ok false => (.returned false, acts)
  | .ok true =>
    match w.clickLoginLink with
    | .error _ => (.returned false, acts ++ [.clickLoginLink])
    | .ok _ =>
      let acts := acts ++ [.clickLoginLink]
      match w.waitEmail with
      | .error _ => (.returned false, acts)
      | .ok emailFound =>
        match w.queryPassword with
        | .error _ => (.returned false, acts)
        | .ok pwFound =>
          if ¬emailFound ∨ ¬pwFound then (.returned false, acts)
          else
            match w.fillEmail with
            | .error _ => (.returned false, acts ++ [.fillEmail])
            | .ok _ =>
              let acts := acts ++ [.fillEmail]
              match w.fillPassword with
              | .error _ => (.returned false, acts ++ [.fillPassword])
              | .ok _ =>
                let acts := acts ++ [.fillPassword]
                match w.querySubmit with
                | .error _ => (.returned false, acts)
                | .ok sb =>
                  let step := if sb then (w.clickSubmit, LoginAction.clickSubmit)
                              else (w.pressEnter, LoginAction.pressEnter)
                  match step.1 with
                  | .error _ => (.returned false, acts ++ [step.2])
                  | .ok _ =>
                    (.returned (loginUrlOk w.finalUrl), acts ++ [step.2])

/-- Mirror of `login`: the credentials check and `page.goto(BASE_URL)` happen
before the `try` block, so a raise from that navigation escapes the method. -/
def login (username password : Option String) (w : LoginWorld) :
    LoginResult × List LoginAction :=
  if pyFalsy username ∨ pyFalsy password then (.returned false, [])
  else
    match w.gotoBase with
    | .error _ => (.raised, [.gotoBase])
    | .ok _ => loginTryBody w [.gotoBase]

/-- Fields of the result dict built by `apply_to_lottery_by_click`. -/
structure ApplyResult where
  success : Bool
  message : String
  already_applied : Bool
  eligible : Bool
  title : String
deriving DecidableEq

/-- Driver actions performed by `apply_to_lottery_by_click`, in order. -/
inductive ApplyAction
  | navigateList
  | hoverCard
  | clickViewDetails
  | reloadDetail
  | clickApplyNow
  | clickCheckbox
  | clickSubmit
  | gotoListBack
  | reloadListBack
  | clickTabBack
deriving DecidableEq

/-- Tag of the element found by the Submit-control selector
`'button:has-text("Submit"), span:has-text("Submit")'`. -/
inductive SubmitTag
  | button
  | span
deriving DecidableEq

/-- One card of the list view as read by `apply_to_lottery_by_click`:
the title element and its text (which `text_content()` may return as `None`,
making the subsequent `.strip()` raise), the grey applied-button and its
text, and whether the View Details button is present. -/
structure CardView where
  -- query of `.title.title-h3` (element present?) and its `text_content()`
  -- (which may be `None`, making the subsequent `.strip()` raise)
  titleText : Option (Option String)
  -- query of `button.btn-grey-90` and its `text_content()` (code applies
  -- `or ''`, so a `None` text is read as the empty string)
  appliedBtnText : Option (Option String)
  -- query of `button:has-text("View Details")`
  viewDetailsBtn : Bool
deriving DecidableEq

/-- Driver responses seen by `apply_to_lottery_by_click`, one field per read,
in program order. The timing-only waits of the detail-load and
back-navigation phases are modelled by the booleans saying whether each
bounded wait found its selector in time. -/
structure ApplyWorld where
  -- `'search-lotteries' not in self.page.url` at entry decides re-navigation
  urlHasSearchLotteries : Bool
  -- the `page.goto` inside `navigate_to_lotteries` (unguarded, may raise)
  entryNav : Except Unit Unit
  -- `query_selector_all('app-lottery-grid-card')` on the list view
  cards : List CardView
  -- first detail-load `wait_for_selector` (45 s) succeeded in time
  detailWait1Ok : Bool
  -- `wait_for_selector` after the reload succeeded in time
  detailWait2Ok : Bool
  -- `button.btn-grey-90:has-text("Applied")` on the detail page
  detailAppliedBtnGrey : Bool
  -- fallback `button:has-text("Applied")`
  detailAppliedBtnAny : Bool
  -- `text_content('body') or ''` read for the already-applied text check
  detailBodyTextA : String
  -- `text_content('body') or ''` read again for the eligibility check
  detailBodyTextB : String
  -- the three Apply-Now selector fallbacks, most to least specific
  applyBtn1 : Bool
  applyBtn2 : Bool
  applyBtn3 : Bool
  -- `wait_for_selector('.mat-checkbox-inner-container', 5000)` found the dialog
  dialogAppears : Bool
  -- re-query of `.mat-checkbox-inner-container`
  checkboxPresent : Bool
  -- query of `button:has-text("Submit"), span:has-text("Submit")` and its tag
  submitSel : Option SubmitTag
  -- re-query of `button:has(span:has-text("Submit"))` when a span was found
  submitFromSpan : Bool
  -- `button.btn-grey-90:has-text("Applied")` after the submission click
  appliedAfter : Bool
  -- `self.page.url` read for the redirected-to-login check
  urlAfter : String
  -- the final `page.goto(LOTTERIES_URL)` (unguarded, may raise)
  gotoListBack : Except Unit Unit
  -- guarded list `wait_for_selector` (45 s) succeeded in time
  backWait1Ok : Bool
  -- unguarded second list wait (60 s) after the reload — a timeout raises
  backWait2Ok : Bool
  -- the category tab was found on the way back
  tabBack : Bool

/-- Check `applied_btn and 'Applied' in (applied_btn.text_content() or '')`
on a list-view card. -/
def cardApplied (c : CardView) : Bool :=
  match c.appliedBtnText with
  | none => false
  | some t => pyIn "Applied" (t.getD "")

/-- Title taken from a list-view card:
`title_el.text_content().strip() if title_el else "Unknown"`. The raising
case (`text_content()` returned `None`) is excluded by the caller. -/
def titleOfCard (c : CardView) : String :=
  match c.titleText with
  | some (some t) => pyStrip t
  | _ => "Unknown"

/-- Detail-page already-applied test: the grey applied button, or any button
whose text contains `Applied`, or the body text containing one of the two
already-applied phrases. -/
def detailApplied (w : ApplyWorld) : Bool :=
  w.detailAppliedBtnGrey || w.detailAppliedBtnAny ||
    pyIn "You have already applied" w.detailBodyTextA ||
    pyIn "Application Submitted" w.detailBodyTextA

/-- Initial value of the result dict in `apply_to_lottery_by_click` with the
title already filled in. -/
def initialResult (title : String) : ApplyResult :=
  { success := false, message := "", already_applied := false,
    eligible := true, title := title }

/-- The not-eligible message
`f"Not eligible: ${self.annual_income:,} outside ${min_income:,} - ${max_income:,}"`. -/
def notEligibleMsg (income : Int) (mn mx : Nat) : String :=
  "Not eligible: $" ++ pyCommaInt income ++ " outside $" ++ pyCommaNat mn ++
    " - $" ++ pyCommaNat mx

/-- Actions of the detail-load wait: the reload happens only when the first
bounded wait timed out. -/
def detailLoadActs (w : ApplyWorld) : List ApplyAction :=
  if w.detailWait1Ok then [] else [.reloadDetail]

/-- Actions of the confirmation-dialog block: when the checkbox wait times
out the whole block is skipped; otherwise the checkbox frame is clicked if
re-queried successfully, and the Submit control is clicked if resolved
(a span is first resolved up to its clickable ancestor button). -/
def dialogActs (w : ApplyWorld) : List ApplyAction :=
  if w.dialogAppears then
    (if w.checkboxPresent then [.clickCheckbox] else []) ++
      (match w.submitSel with
       | none => []
       | some .button => [.clickSubmit]
       | some .span => if w.submitFromSpan then [.clickSubmit] else [])
  else []

/-- Back-navigation to the listings view at the end of
`apply_to_lottery_by_click`: the `page.goto` is unguarded, and the second
`wait_for_selector` after the reload is not guarded either, so both may
raise past the method. -/
def backNav (w : ApplyWorld) (r : ApplyResult) (pre : List ApplyAction) :
    Except Unit (ApplyResult × List ApplyAction) :=
  match w.gotoListBack with
  | .error e => .error e
  | .ok _ =>
    let acts := pre ++ [.gotoListBack] ++ (if w.backWait1Ok then [] else [.reloadListBack])
    if ¬w.backWait1Ok ∧ ¬w.backWait2Ok then .error ()
    else .ok (r, acts ++ (if w.tabBack then [.clickTabBack] else []))

/-- SUBMIT / CONFIRM / RETURN phases of `apply_to_lottery_by_click`, entered
after the eligibility check passed or failed open. -/
def submitPhase (w : ApplyWorld) (r : ApplyResult) (pre : List ApplyAction) :
    Except Unit (ApplyResult × List ApplyAction) :=
  if ¬(w.applyBtn1 ∨ w.applyBtn2 ∨ w.applyBtn3) then
    .ok ({ r with message := "Could not find Apply Now button" }, pre)
  else
    let acts := pre ++ [.clickApplyNow] ++ dialogActs w
    let rr :=
      if w.appliedAfter then
        { r with success := true, message := "Successfully applied!" }
      else if pyIn "login" (pyLower w.urlAfter) ∨ pyIn "id4/account" (pyLower w.urlAfter) then
        { r with message := "Redirected to login - not logged in" }
      else
        { r with success := true, message := "Application submitted (unverified)" }
    backNav w rr acts

/-- Phases of `apply_to_lottery_by_click` after the card has been located and
its title read. -/
def applyWithTitle (annualIncome : Int) (w : ApplyWorld) (card : CardView)
    (title : String) (pre : List ApplyAction) :
    Except Unit (ApplyResult × List ApplyAction) :=
  let r0 := initialResult title
  if cardApplied card then
    .ok ({ r0 with already_applied := true, message := "Already applied" }, pre)
  else
    let pre := pre ++ [.hoverCard]
    if ¬card.viewDetailsBtn then
      .ok ({ r0 with message := "Could not find View Details button" }, pre)
    else
      let pre := pre ++ [.clickViewDetails] ++ detailLoadActs w
      if detailApplied w then
        .ok ({ r0 with already_applied := true, message := "Already applied" }, pre)
      else
        match parse_income_range w.detailBodyTextB with
        | .error e => .error e
        | .ok (some mn, some mx) =>
          if ¬((mn : Int) ≤ annualIncome ∧ annualIncome ≤ (mx : Int)) then
            .ok ({ r0 with eligible := false,
                           message := notEligibleMsg annualIncome mn mx }, pre)
          else submitPhase w r0 pre
        | .ok (_, _) => submitPhase w r0 pre

/-- LOCATE_CARD phase of `apply_to_lottery_by_click`, entered on the
(possibly just re-navigated) list view with the actions so far in `pre`. -/
def applyLocate (annualIncome : Int) (cardIndex : Nat) (w : ApplyWorld)
    (pre : List ApplyAction) : Except Unit (ApplyResult × List ApplyAction) :=
  if h : cardIndex < w.cards.length then
    let card := w.cards.get ⟨cardIndex, h⟩
    if card.titleText = some none then .error ()
    else applyWithTitle annualIncome w card (titleOfCard card) pre
  else
    .ok ({ initialResult "Unknown" with
           message := "Card index " ++ toString cardIndex ++ " out of range" }, pre)

/-- Mirror of `apply_to_lottery_by_click`. `Except.error` models an exception
escaping the method (an unguarded `page.goto` raising, a `None` title text
hitting `.strip()`, an income group with no digit hitting `int('')`, or the
final unguarded list wait timing out). When the current location is not the
listings view, `navigate_to_lotteries` runs first and its `goto` may raise. -/
def apply_to_lottery_by_click (annualIncome : Int) (cardIndex : Nat)
    (w : ApplyWorld) : Except Unit (ApplyResult × List ApplyAction) :=
  if w.urlHasSearchLotteries then applyLocate annualIncome cardIndex w []
  else
    match w.entryNav with
    | .error e => .error e
    | .ok _ => applyLocate annualIncome cardIndex w [.navigateList]

/-- One row of the `card_data` summary built by `apply_all_sales.main`. -/
structure CardData where
  index : Nat
  title : String
  is_applied : Bool
deriving DecidableEq

/-- Summary of one card at ordinal `i` in `apply_all_sales.main`:
`title_el.text_content().strip() if title_el else f"Unknown_{i}"`, plus the
applied-button check; `.strip()` on a `None` text raises. -/
def summarizeCard (i : Nat) (c : CardView) : Except Unit CardData :=
  match c.titleText with
  | some none => .error ()
  | some (some t) => .ok ⟨i, pyStrip t, cardApplied c⟩
  | none => .ok ⟨i, "Unknown_" ++ toString i, cardApplied c⟩

/-- Summaries of all cards of one page, enumerated from `i`. -/
def summarizeCards (i : Nat) : List CardView → Except Unit (List CardData)
  | [] => .ok []
  | c :: cs => do
    let d ← summarizeCard i c
    let ds ← summarizeCards (i + 1) cs
    pure (d :: ds)

/-- Card loop of `apply_all_sales.main` on one page: a title already in
`processed_titles` is skipped with no outcome recorded; an applied card gets
a fabricated already-applied outcome; otherwise the Application Workflow is
invoked by page and index (abstracted as `applyRes`), and its outcome
recorded. Returns the recorded outcomes and the grown processed set. -/
def processCards (applyRes : Nat → Nat → ApplyResult) (pageNum : Nat) :
    List CardData → List String → List ApplyResult × List String
  | [], processed => ([], processed)
  | d :: rest, processed =>
    if d.title ∈ processed then processCards applyRes pageNum rest processed
    else
      let processed := d.title :: processed
      if d.is_applied then
        let p := processCards applyRes pageNum rest processed
        ({ success := false, message := "Already applied", already_applied := true,
           eligible := true, title := d.title } :: p.1, p.2)
      else
        let p := processCards applyRes pageNum rest processed
        (applyRes pageNum d.index :: p.1, p.2)

/-- Page loop of `apply_all_sales.main`, pages numbered from `pageNum`,
threading the `all_results` accumulator and the `processed_titles` set. -/
def runPages (applyRes : Nat → Nat → ApplyResult) :
    List (List CardView) → Nat → List String →
      Except Unit (List ApplyResult × List String)
  | [], _, processed => .ok ([], processed)
  | pg :: pgs, pageNum, processed => do
    let ds ← summarizeCards 0 pg
    let p := processCards applyRes pageNum ds processed
    let rest ← runPages applyRes pgs (pageNum + 1) p.2
    pure (p.1 ++ rest.1, rest.2)

/-- Mirror of the outcome-collection loop of `apply_all_sales.main`, the pages
given by their card views and the workflow invocation abstracted by
`applyRes` (page number and card index to recorded outcome). -/
def applyAllSalesMain (applyRes : Nat → Nat → ApplyResult)
    (pages : List (List CardView)) : Except Unit (List ApplyResult) :=
  Except.map Prod.fst (runPages applyRes pages 1 [])

/-- Summaries of one page as the outcome-collection loop sees them, the
raising case read as the empty list (used only to phrase hypotheses). -/
def pageSummaries (pg : List CardView) : List CardData :=
  match summarizeCards 0 pg with
  | .ok ds => ds
  | .error _ => []

/-- Example card used by concrete evaluations: present title (with padding
to exercise stripping), a non-applied button, View Details present. -/
def cardEx : CardView :=
  { titleText := some (some "Some Lottery  "),
    appliedBtnText := some (some "Apply"),
    viewDetailsBtn := true }

/-- Example world for concrete evaluations of the application workflow. -/
def wEx : ApplyWorld :=
  { urlHasSearchLotteries := true
    entryNav := .ok ()
    cards := [cardEx]
    detailWait1Ok := true
    detailWait2Ok := true
    detailAppliedBtnGrey := false
    detailAppliedBtnAny := false
    detailBodyTextA := "Lottery detail"
    detailBodyTextB := "Eligible Income: $32,195 - $226,800"
    applyBtn1 := false
    applyBtn2 := false
    applyBtn3 := false
    dialogAppears := false
    checkboxPresent := false
    submitSel := none
    submitFromSpan := false
    appliedAfter := false
    urlAfter := "https://housingconnect.nyc.gov/PublicWeb/search-lotteries"
    gotoListBack := .ok ()
    backWait1Ok := true
    backWait2Ok := true
    tabBack := true }

/-- Example login world in which every driver call succeeds and the final
location is back on the application. -/
def wLoginOk : LoginWorld :=
  { gotoBase := .ok ()
    loginLink := .ok true
    clickLoginLink := .ok ()
    waitEmail := .ok true
    queryPassword := .ok true
    fillEmail := .ok ()
    fillPassword := .ok ()
    querySubmit := .ok true
    clickSubmit := .ok ()
    pressEnter := .ok ()
    finalUrl := "https://housingconnect.nyc.gov/PublicWeb/search-lotteries" }

/-- Example login world whose initial navigation raises. -/
def wLoginBad : LoginWorld := { wLoginOk with gotoBase := .error () }

/-- Example card element with id 111 and full details. -/
def cardA : Card :=
  { img := .ok (some (.ok (some "https://a806-housingconnectapi.nyc.gov/MailTemplates/photos/111.png"))),
    titleEl := .ok (some (.ok (some "Alpha Towers"))),
    locationEl := .ok (some (.ok (some " Bronx "))),
    unitsEl := .ok (some (.ok (some "12 Units Available"))),
    closingEl := .ok (some (.ok (some "5 Days"))),
    appliedBtn := .ok none }

/-- Example card element with id 222. -/
def cardB : Card :=
  { img := .ok (some (.ok (some "https://a806-housingconnectapi.nyc.gov/MailTemplates/photos/222.png"))),
    titleEl := .ok (some (.ok (some "Beta Court"))),
    locationEl := .ok none,
    unitsEl := .ok none,
    closingEl := .ok none,
    appliedBtn := .ok none }

/-- Example card element with id 333. -/
def cardC : Card :=
  { img := .ok (some (.ok (some "https://a806-housingconnectapi.nyc.gov/MailTemplates/photos/333.png"))),
    titleEl := .ok (some (.ok (some "Gamma Homes"))),
    locationEl := .ok none,
    unitsEl := .ok none,
    closingEl := .ok none,
    appliedBtn := .ok none }

/-- Two pages of cards in which card 222 appears on both pages. -/
def pagesEx : List (List Card) := [[cardA, cardB], [cardB, cardC]]

/-- The record parsed from `cardB`. -/
def recB : LotteryInfo :=
  { id := "222", title := "Beta Court", lottery_type := "rental",
    url := some "https://housingconnect.nyc.gov/PublicWeb/lottery-details/222" }

/-- Example card element with no image element. -/
def cardNoImg : Card :=
  { img := .ok none,
    titleEl := .ok (some (.ok (some "No Image Lottery"))),
    locationEl := .ok none,
    unitsEl := .ok none,
    closingEl := .ok none,
    appliedBtn := .ok none }

/-- Example card element with an image but no title element. -/
def cardNoTitle : Card :=
  { img := .ok (some (.ok (some "/photos/5.png"))),
    titleEl := .ok none,
    locationEl := .ok none,
    unitsEl := .ok none,
    closingEl := .ok none,
    appliedBtn := .ok none }

/-- The record parsed from `cardNoTitle`. -/
def recNoTitle : LotteryInfo :=
  { id := "5", title := "Unknown", lottery_type := "rental",
    url := some "https://housingconnect.nyc.gov/PublicWeb/lottery-details/5" }

/-- The outcome returned for an out-of-range index 0. -/
def resOutOfRange : ApplyResult :=
  { success := false, message := "Card index 0 out of range",
    already_applied := false, eligible := true, title := "Unknown" }

/-- The outcome returned by `wEx` at income 60000: eligible, but the Apply Now
button is absent. -/
def resNoApplyBtn : ApplyResult :=
  { success := false, message := "Could not find Apply Now button",
    already_applied := false, eligible := true, title := "Some Lottery" }

/-- The end-to-end scenario of the spec: two pages, page 1 with three cards of
which the first is already applied, page 2 with two new cards. -/
def pagesC8 : List (List CardView) :=
  [[{ titleText := some (some "Tower One"), appliedBtnText := some (some "Applied"),
      viewDetailsBtn := true },
    { titleText := some (some "Tower Two"), appliedBtnText := none, viewDetailsBtn := true },
    { titleText := some (some "Tower Three"), appliedBtnText := none, viewDetailsBtn := true }],
   [{ titleText := some (some "Tower Four"), appliedBtnText := none, viewDetailsBtn := true },
    { titleText := some (some "Tower Five"), appliedBtnText := none, viewDetailsBtn := true }]]

/-- Workflow outcomes for `pagesC8` in which every invocation reports the
title of the card actually summarized at that page and index. -/
def applyResC8 : Nat → Nat → ApplyResult := fun p i =>
  { success := true, message := "Successfully applied!", already_applied := false,
    eligible := true,
    title := if p = 1 then (if i = 1 then "Tower Two" else "Tower Three")
             else (if i = 0 then "Tower Four" else "Tower Five") }

/-- The five outcomes the Batch Orchestrator records on `pagesC8`. -/
def outsC8 : List ApplyResult :=
  [{ success := false, message := "Already applied", already_applied := true,
     eligible := true, title := "Tower One" },
   { success := true, message := "Successfully applied!", already_applied := false,
     eligible := true, title := "Tower Two" },
   { success := true, message := "Successfully applied!", already_applied := false,
     eligible := true, title := "Tower Three" },
   { success := true, message := "Successfully applied!", already_applied := false,
     eligible := true, title := "Tower Four" },
   { success := true, message := "Successfully applied!", already_applied := false,
     eligible := true, title := "Tower Five" }]

/-- A workflow that, after the grid shifted, reports the same card title for
every invocation. -/
def applyResShifted : Nat → Nat → ApplyResult := fun _ _ =>
  { success := true, message := "Successfully applied!", already_applied := false,
    eligible := true, title := "Tower One" }

/-- One page with two distinct card titles. -/
def pagesShifted : List (List CardView) :=
  [[{ titleText := some (some "Tower One"), appliedBtnText := none, viewDetailsBtn := true },
    { titleText := some (some "Tower Two"), appliedBtnText := none, viewDetailsBtn := true }]]

theorem data_append (a b : String) : (a ++ b).data = a.data ++ b.data := by
  cases a; cases b; rfl

theorem str_append_assoc (a b c : String) : a ++ b ++ c = a ++ (b ++ c) := by
  cases a; cases b; cases c
  exact congrArg String.mk (List.append_assoc ..)

theorem str_append_empty (a : String) : a ++ "" = a := by
  cases a; exact congrArg String.mk (List.append_nil _)

theorem append_data_ne_nil (a b : String) (h : a.data ≠ []) : (a ++ b).data ≠ [] := by
  rw [data_append]
  intro hc
  exact h (List.append_eq_nil.mp hc).1

theorem str_append_ne_empty (a b : String) (h : a.data ≠ []) : a ++ b ≠ "" := by
  intro hc
  have h2 := congrArg String.data hc
  rw [data_append] at h2
  have h0 : String.data "" = ([] : List Char) := rfl
  rw [h0] at h2
  exact h (List.append_eq_nil.mp h2).1

theorem isPrefixOf_append_self (n b : List Char) : n.isPrefixOf (n ++ b) = true := by
  simp only [List.isPrefixOf_iff_prefix]
  exact List.prefix_append n b

theorem listIn_of_isPrefixOf {n h : List Char} (hp : n.isPrefixOf h = true) :
    listIn n h = true := by
  cases h with
  | nil => simpa [listIn] using hp
  | cons c rest =>
    show (n.isPrefixOf (c :: rest) || listIn n rest) = true
    rw [hp, Bool.true_or]

theorem listIn_append_self (a n b : List Char) : listIn n (a ++ (n ++ b)) = true := by
  induction a with
  | nil => exact listIn_of_isPrefixOf (isPrefixOf_append_self n b)
  | cons c cs ih =>
    show (n.isPrefixOf (c :: (cs ++ (n ++ b))) || listIn n (cs ++ (n ++ b))) = true
    rw [ih, Bool.or_true]

theorem pyIn_append_self (a n b : String) : pyIn n (a ++ n ++ b) = true := by
  unfold pyIn
  rw [data_append, data_append, List.append_assoc]
  exact listIn_append_self a.data n.data b.data

theorem bind_eq_ok {α β : Type} {x : Except Unit α} {f : α → Except Unit β} {b : β}
    (h : x >>= f = .ok b) : ∃ a, x = .ok a ∧ f a = .ok b := by
  cases x with
  | error e => simp [Bind.bind, Except.bind] at h
  | ok a => exact ⟨a, rfl, by simpa [Bind.bind, Except.bind] using h⟩

theorem notEligibleMsg_ne_empty (i : Int) (mn mx : Nat) : notEligibleMsg i mn mx ≠ "" := by
  unfold notEligibleMsg
  exact str_append_ne_empty _ _ (append_data_ne_nil _ _ (append_data_ne_nil _ _
    (append_data_ne_nil _ _ (append_data_ne_nil _ _ (by decide)))))

theorem card_index_msg_ne_empty (i : Nat) :
    "Card index " ++ toString i ++ " out of range" ≠ "" :=
  str_append_ne_empty _ _ (append_data_ne_nil _ _ (by decide))

theorem notEligibleMsg_cites_min (i : Int) (mn mx : Nat) :
    pyIn (pyCommaNat mn) (notEligibleMsg i mn mx) = true := by
  have h : notEligibleMsg i mn mx =
      ("Not eligible: $" ++ pyCommaInt i ++ " outside $") ++ pyCommaNat mn ++
        (" - $" ++ pyCommaNat mx) := by
    unfold notEligibleMsg
    exact str_append_assoc _ _ _
  rw [h]
  exact pyIn_append_self _ _ _

theorem notEligibleMsg_cites_max (i : Int) (mn mx : Nat) :
    pyIn (pyCommaNat mx) (notEligibleMsg i mn mx) = true := by
  have h : notEligibleMsg i mn mx =
      ("Not eligible: $" ++ pyCommaInt i ++ " outside $" ++ pyCommaNat mn ++ " - $") ++
        pyCommaNat mx ++ "" := by
    unfold notEligibleMsg
    rw [str_append_empty]
  rw [h]
  exact pyIn_append_self _ _ _

theorem parse_some_fields {ty : String} {c : Card} {r : LotteryInfo}
    (h : parse_lottery_card ty c = some r) :
    ∃ lid ttl loc un dy ap,
      extractId c.img = .ok (some lid) ∧
      extractTitle c.titleEl = .ok ttl ∧
      extractLocation c.locationEl = .ok loc ∧
      extractUnits c.unitsEl = .ok un ∧
      extractDays c.closingEl = .ok dy ∧
      extractApplied c.appliedBtn = .ok ap ∧
      r = { id := lid, title := ttl, lottery_type := ty, location := loc,
            units_available := un, days_until_closing := dy, is_applied := ap,
            url := some (BASE_URL ++ "/lottery-details/" ++ lid) } := by
  unfold parse_lottery_card at h
  rcases hb : parseCardBody ty c with e | ro
  · rw [hb] at h
    exact absurd h (by simp)
  · rw [hb] at h
    subst h
    unfold parseCardBody at hb
    obtain ⟨lid, h1, hb⟩ := bind_eq_ok hb
    obtain ⟨ttl, h2, hb⟩ := bind_eq_ok hb
    obtain ⟨loc, h3, hb⟩ := bind_eq_ok hb
    obtain ⟨un, h4, hb⟩ := bind_eq_ok hb
    obtain ⟨dy, h5, hb⟩ := bind_eq_ok hb
    obtain ⟨ap, h6, hb⟩ := bind_eq_ok hb
    cases lid with
    | none => simp [pure, Except.pure] at hb
    | some l =>
      simp only [pure, Except.pure, Except.ok.injEq, Option.some.injEq] at hb
      exact ⟨l, ttl, loc, un, dy, ap, h1, h2, h3, h4, h5, h6, hb.symm⟩

theorem addNew_sublist (xs : List LotteryInfo) (seen : List String) :
    (addNewLotteries xs seen).1.Sublist xs := by
  induction xs generalizing seen with
  | nil => simp [addNewLotteries]
  | cons l ls ih =>
    by_cases h : l.id ∈ seen
    · simp only [addNewLotteries, if_pos h]
      exact (ih seen).cons l
    · simp only [addNewLotteries, if_neg h]
      exact (ih (l.id :: seen)).cons₂ l

theorem addNew_nodup (xs : List LotteryInfo) (seen : List String) :
    ((addNewLotteries xs seen).1.map LotteryInfo.id).Nodup ∧
    ∀ i ∈ (addNewLotteries xs seen).1.map LotteryInfo.id, i ∉ seen := by
  induction xs generalizing seen with
  | nil => simp [addNewLotteries]
  | cons l ls ih =>
    by_cases h : l.id ∈ seen
    · simpa [addNewLotteries, if_pos h] using ih seen
    · obtain ⟨ihn, ihs⟩ := ih (l.id :: seen)
      refine ⟨?_, ?_⟩
      · simp only [addNewLotteries, if_neg h, List.map_cons, List.nodup_cons]
        exact ⟨fun hm => (ihs _ hm) (List.mem_cons_self _ _), ihn⟩
      · intro i him
        simp only [addNewLotteries, if_neg h, List.map_cons, List.mem_cons] at him
        rcases him with rfl | him
        · exact h
        · intro hin
          exact (ihs i him) (List.mem_cons_of_mem _ hin)

theorem addNew_find (xs : List LotteryInfo) (seen : List String) :
    ∀ r ∈ (addNewLotteries xs seen).1,
      r.id ∉ seen ∧ xs.find? (fun x => x.id == r.id) = some r := by
  induction xs generalizing seen with
  | nil => simp [addNewLotteries]
  | cons l ls ih =>
    intro r hr
    by_cases h : l.id ∈ seen
    · simp only [addNewLotteries, if_pos h] at hr
      obtain ⟨hns, hfind⟩ := ih seen r hr
      have hne : (l.id == r.id) = false := by
        rw [beq_eq_false_iff_ne]
        intro he
        rw [he] at h
        exact hns h
      exact ⟨hns, by simp [List.find?, hne, hfind]⟩
    · simp only [addNewLotteries, if_neg h, List.mem_cons] at hr
      rcases hr with rfl | hr
      · exact ⟨h, by simp [List.find?]⟩
      · obtain ⟨hns, hfind⟩ := ih (l.id :: seen) r hr
        have hrs : r.id ∉ seen := fun hc => hns (List.mem_cons_of_mem _ hc)
        have hne : (l.id == r.id) = false := by
          rw [beq_eq_false_iff_ne]
          intro he
          exact hns (he ▸ List.mem_cons_self _ _)
        exact ⟨hrs, by simp [List.find?, hne, hfind]⟩

theorem addNew_complete (xs : List LotteryInfo) (seen : List String) :
    ∀ r ∈ xs, r.id ∈ seen ∨ ∃ q ∈ (addNewLotteries xs seen).1, q.id = r.id := by
  induction xs generalizing seen with
  | nil => simp
  | cons l ls ih =>
    intro r hr
    rcases List.mem_cons.mp hr with rfl | hr
    · by_cases h : r.id ∈ seen
      · exact Or.inl h
      · right
        exact ⟨r, by simp [addNewLotteries, if_neg h], rfl⟩
    · by_cases h : l.id ∈ seen
      · rcases ih seen r hr with hs | ⟨q, hq, he⟩
        · exact Or.inl hs
        · right
          refine ⟨q, ?_, he⟩
          simp only [addNewLotteries, if_pos h]
          exact hq
      · rcases ih (l.id :: seen) r hr with hs | ⟨q, hq, he⟩
        · rcases List.mem_cons.mp hs with he2 | hs2
          · right
            exact ⟨l, by simp [addNewLotteries, if_neg h], he2.symm⟩
          · exact Or.inl hs2
        · right
          refine ⟨q, ?_, he⟩
          simp only [addNewLotteries, if_neg h, List.mem_cons]
          exact Or.inr hq

theorem addNew_append (xs ys : List LotteryInfo) (seen : List String) :
    addNewLotteries (xs ++ ys) seen =
      ((addNewLotteries xs seen).1 ++
         (addNewLotteries ys (addNewLotteries xs seen).2).1,
       (addNewLotteries ys (addNewLotteries xs seen).2).2) := by
  induction xs generalizing seen with
  | nil => simp [addNewLotteries]
  | cons l ls ih =>
    by_cases h : l.id ∈ seen
    · simp only [List.cons_append, addNewLotteries, if_pos h]
      exact ih seen
    · simp only [List.cons_append, addNewLotteries, if_neg h, List.append_eq,
        ih (l.id :: seen)]

theorem collectPages_eq (ty : String) (pages : List (List Card)) (seen : List String) :
    collectPages ty pages seen =
      (addNewLotteries ((pages.map (get_lotteries_from_current_page ty)).flatten) seen).1 := by
  induction pages generalizing seen with
  | nil => simp [collectPages, addNewLotteries]
  | cons p ps ih =>
    simp only [collectPages, List.map_cons, List.flatten_cons, addNew_append, ih]

theorem loginTryBody_not_raised (w : LoginWorld) (acts : List LoginAction) :
    (loginTryBody w acts).1 ≠ .raised := by
  unfold loginTryBody
  repeat' split
  all_goals first
  | (simp
     done)
  | (cases w.clickSubmit <;> (simp; done))
  | (cases w.pressEnter <;> simp)

theorem submitPhase_shape {w : ApplyWorld} {r0 r : ApplyResult}
    {pre acts : List ApplyAction} (h : submitPhase w r0 pre = .ok (r, acts)) :
    r = { r0 with message := "Could not find Apply Now button" } ∨
    r = { r0 with success := true, message := "Successfully applied!" } ∨
    r = { r0 with message := "Redirected to login - not logged in" } ∨
    r = { r0 with success := true, message := "Application submitted (unverified)" } := by
  simp only [submitPhase, backNav] at h
  split at h
  · simp only [Except.ok.injEq, Prod.mk.injEq] at h
    exact Or.inl h.1.symm
  · split at h
    · exact absurd h (by simp)
    · split at h
      · exact absurd h (by simp)
      · simp only [Except.ok.injEq, Prod.mk.injEq] at h
        obtain ⟨h1, -⟩ := h
        split at h1
        · exact Or.inr (Or.inl h1.symm)
        · split at h1
          · exact Or.inr (Or.inr (Or.inl h1.symm))
          · exact Or.inr (Or.inr (Or.inr h1.symm))

theorem submitPhase_fields {w : ApplyWorld} {r0 r : ApplyResult}
    {pre acts : List ApplyAction} (h : submitPhase w r0 pre = .ok (r, acts)) :
    r.eligible = r0.eligible ∧ r.already_applied = r0.already_applied ∧
    r.title = r0.title := by
  rcases submitPhase_shape h with rfl | rfl | rfl | rfl <;> exact ⟨rfl, rfl, rfl⟩

theorem processCards_props (applyRes : Nat → Nat → ApplyResult) (pageNum : Nat) :
    ∀ (ds : List CardData) (processed : List String),
      (∀ d ∈ ds, d.is_applied = false → (applyRes pageNum d.index).title = d.title) →
      (((processCards applyRes pageNum ds processed).1.map ApplyResult.title).Nodup ∧
       (∀ t ∈ (processCards applyRes pageNum ds processed).1.map ApplyResult.title,
          t ∉ processed ∧ t ∈ (processCards applyRes pageNum ds processed).2) ∧
       (∀ t ∈ processed, t ∈ (processCards applyRes pageNum ds processed).2)) := by
  intro ds
  induction ds with
  | nil =>
    intro processed H
    simp [processCards]
  | cons d rest ih =>
    intro processed H
    have Hrest : ∀ x ∈ rest, x.is_applied = false →
        (applyRes pageNum x.index).title = x.title :=
      fun x hx => H x (List.mem_cons_of_mem _ hx)
    by_cases hmem : d.title ∈ processed
    · simpa [processCards, if_pos hmem] using ih processed Hrest
    · have key : ∀ out0 : ApplyResult, out0.title = d.title →
          (((out0 :: (processCards applyRes pageNum rest (d.title :: processed)).1).map
              ApplyResult.title).Nodup ∧
           (∀ t ∈ (out0 :: (processCards applyRes pageNum rest (d.title :: processed)).1).map
              ApplyResult.title,
              t ∉ processed ∧
                t ∈ (processCards applyRes pageNum rest (d.title :: processed)).2) ∧
           (∀ t ∈ processed,
              t ∈ (processCards applyRes pageNum rest (d.title :: processed)).2)) := by
        intro out0 ht
        obtain ⟨ihn, ihm, ihp⟩ := ih (d.title :: processed) Hrest
        refine ⟨?_, ?_, ?_⟩
        · rw [List.map_cons, List.nodup_cons]
          refine ⟨?_, ihn⟩
          rw [ht]
          intro hmem2
          exact (ihm _ hmem2).1 (List.mem_cons_self _ _)
        · intro t htm
          rw [List.map_cons] at htm
          rcases List.mem_cons.mp htm with rfl | htm
          · rw [ht]
            exact ⟨hmem, ihp _ (List.mem_cons_self _ _)⟩
          · exact ⟨fun hc => (ihm t htm).1 (List.mem_cons_of_mem _ hc), (ihm t htm).2⟩
        · intro t htp
          exact ihp t (List.mem_cons_of_mem _ htp)
      by_cases happ : d.is_applied
      · simp only [processCards, if_neg hmem, if_pos happ]
        exact key _ rfl
      · simp only [processCards, if_neg hmem, if_neg happ]
        exact key _ (H d (List.mem_cons_self _ _) (by revert happ; cases d.is_applied <;> simp))

theorem runPages_props (applyRes : Nat → Nat → ApplyResult) :
    ∀ (pages : List (List CardView)) (pageNum : Nat) (processed : List String)
      (outs : List ApplyResult) (procd : List String),
      (∀ k : Fin pages.length, ∀ d ∈ pageSummaries (pages.get k),
         d.is_applied = false → (applyRes (pageNum + k.val) d.index).title = d.title) →
      runPages applyRes pages pageNum processed = .ok (outs, procd) →
      ((outs.map ApplyResult.title).Nodup ∧
       (∀ t ∈ outs.map ApplyResult.title, t ∉ processed ∧ t ∈ procd) ∧
       (∀ t ∈ processed, t ∈ procd)) := by
  intro pages
  induction pages with
  | nil =>
    intro pageNum processed outs procd H h
    simp only [runPages, Except.ok.injEq, Prod.mk.injEq] at h
    obtain ⟨rfl, rfl⟩ := h
    simp
  | cons pg pgs ih =>
    intro pageNum processed outs procd H h
    simp only [runPages] at h
    obtain ⟨ds, hds, h⟩ := bind_eq_ok h
    obtain ⟨rest, hrest, hpure⟩ := bind_eq_ok h
    simp only [pure, Except.pure, Except.ok.injEq, Prod.mk.injEq] at hpure
    obtain ⟨rfl, rfl⟩ := hpure
    have H0 : ∀ d ∈ ds, d.is_applied = false →
        (applyRes pageNum d.index).title = d.title := by
      intro d hd hap
      have hk := H ⟨0, by simp⟩ d (by simpa [pageSummaries, hds] using hd) hap
      simpa using hk
    have Hrec : ∀ k : Fin pgs.length, ∀ d ∈ pageSummaries (pgs.get k),
        d.is_applied = false → (applyRes (pageNum + 1 + k.val) d.index).title = d.title := by
      intro k d hd hap
      have hk := H ⟨k.val + 1, by simp [k.isLt]⟩ d hd hap
      have heq : pageNum + (k.val + 1) = pageNum + 1 + k.val := by omega
      rw [heq] at hk
      exact hk
    obtain ⟨An, Am, Ap⟩ := processCards_props applyRes pageNum ds processed H0
    obtain ⟨Bn, Bm, Bp⟩ := ih (pageNum + 1) _ rest.1 rest.2 Hrec hrest
    refine ⟨?_, ?_, ?_⟩
    · rw [List.map_append]
      exact An.append Bn (fun t ht1 ht2 => (Bm t ht2).1 (Am t ht1).2)
    · intro t htm
      rw [List.map_append] at htm
      rcases List.mem_append.mp htm with htm | htm
      · exact ⟨(Am t htm).1, Bp _ (Am t htm).2⟩
      · exact ⟨fun hc => (Bm t htm).1 (Ap t hc), (Bm t htm).2⟩
    · intro t htp
      exact Bp t (Ap t htp)

example : apply_to_lottery_by_click 20000 0 wEx =
    .ok ({ success := false,
           message := "Not eligible: $20,000 outside $32,195 - $226,800",
           already_applied := false, eligible := false, title := "Some Lottery" },
         [ApplyAction.hoverCard, ApplyAction.clickViewDetails]) := by decide

example : apply_to_lottery_by_click 60000 0 wEx =
    .ok ({ success := false, message := "Could not find Apply Now button",
           already_applied := false, eligible := true, title := "Some Lottery" },
         [ApplyAction.hoverCard, ApplyAction.clickViewDetails]) := by decide

example : login (some "user") (some "pass") wLoginOk =
    (.returned true,
     [LoginAction.gotoBase, LoginAction.clickLoginLink, LoginAction.fillEmail,
      LoginAction.fillPassword, LoginAction.clickSubmit]) := by decide

example : login (some "user") (some "pass") wLoginBad =
    (.raised, [LoginAction.gotoBase]) := by decide

example : parse_lottery_card "rental" cardA =
    some { id := "111", title := "Alpha Towers", lottery_type := "rental",
           location := some "Bronx", units_available := some 12,
           days_until_closing := some 5, is_applied := false,
           url := some "https://housingconnect.nyc.gov/PublicWeb/lottery-details/111" } := by
  decide

example : pyCommaNat 32195 = "32,195" := by decide
example : pyCommaNat 226800 = "226,800" := by decide

example : parse_income_range "Eligible Income: $32,195 - $226,800" =
    .ok (some 32195, some 226800) := by decide
example : parse_income_range "no income text here" = .ok (none, none) := by decide
example : searchPages "2 / 7" = some (2, 7) := by decide

/-- C2 (corrected): the income-range parser applied to the exact phrase
`"Eligible Income: $32,195 - $226,800"` returns `(32195, 226800)` with
thousands separators stripped, and applied to any text in which the income
pattern does not match anywhere it returns `(None, None)`. (As originally
stated — over every text merely containing the phrase — the claim fails,
because the greedy match can extend past the quoted bounds.) -/
theorem C2_income_range_parsing :
    parse_income_range "Eligible Income: $32,195 - $226,800" =
      .ok (some 32195, some 226800) ∧
    ∀ text, searchIncome text = none →
      parse_income_range text = .ok (none, none) := by
  refine ⟨by decide, ?_⟩
  intro text h
  unfold parse_income_range
  rw [h]

/-- Witness for C2: a concrete text with no match of the pattern. -/
theorem C2_income_range_parsing_witness :
    searchIncome "no match here" = none ∧
    parse_income_range "no match here" = .ok (none, none) :=
  ⟨by decide, C2_income_range_parsing.2 "no match here" (by decide)⟩

/-- Counterexample to C2 as stated: this text contains the phrase
`"Eligible Income: $32,195 - $226,800"` as a substring, yet the parser does
not return `(32195, 226800)` (the greedy second group reads `226,8001`). -/
theorem C2_counterexample :
    pyIn "Eligible Income: $32,195 - $226,800"
        "Eligible Income: $32,195 - $226,8001" = true ∧
    parse_income_range "Eligible Income: $32,195 - $226,8001" ≠
      .ok (some 32195, some 226800) ∧
    parse_income_range "Eligible Income: $32,195 - $226,8001" =
      .ok (some 32195, some 2268001) := by decide

/-- C4 (corrected): `_get_total_pages` parses `"X / Y"`-style text and
returns `Y`, and returns the default 1 when the pagination query raises,
finds nothing, reads a `None` text, or the text does not match the shape.
(The "always positive" part of the original claim fails: the code returns
the matched `Y` even when it is 0.) -/
theorem C4_total_pages :
    get_total_pages .raises = 1 ∧
    get_total_pages .absent = 1 ∧
    get_total_pages (.content none) = 1 ∧
    (∀ s, searchPages s = none → get_total_pages (.content (some s)) = 1) ∧
    (∀ s x y, searchPages s = some (x, y) →
      get_total_pages (.content (some s)) = y) := by
  refine ⟨rfl, rfl, rfl, ?_, ?_⟩
  · intro s h
    simp [get_total_pages, h]
  · intro s x y h
    simp [get_total_pages, h]

/-- Witness for C4: the spec's own example text. -/
theorem C4_total_pages_witness :
    searchPages "2 / 7" = some (2, 7) ∧
    get_total_pages (.content (some "2 / 7")) = 7 ∧
    get_total_pages .absent = 1 :=
  ⟨by decide, C4_total_pages.2.2.2.2 "2 / 7" 2 7 (by decide), C4_total_pages.2.1⟩

/-- Counterexample to C4 as stated: on pagination text `"1 / 0"`, which
matches the `X / Y` shape, the function returns 0, not a positive integer. -/
theorem C4_counterexample :
    get_total_pages (.content (some "1 / 0")) = 0 ∧
    ¬0 < get_total_pages (.content (some "1 / 0")) := by decide

/-- C3 (confirmed): for every category and every sequence of per-page
card-parse results, `get_lottery_ids` returns no two records with equal id;
it is a subsequence of the concatenated page scans, each of its records is
the first record carrying its id in that concatenation (first-seen order,
later occurrences dropped), and every id that any page produced is
represented. -/
theorem C3_collector_dedup (lottery_type : String) (pages : List (List Card)) :
    ((get_lottery_ids lottery_type pages).map LotteryInfo.id).Nodup ∧
    (get_lottery_ids lottery_type pages).Sublist
      ((pages.map (get_lotteries_from_current_page lottery_type)).flatten) ∧
    (∀ r ∈ get_lottery_ids lottery_type pages,
      ((pages.map (get_lotteries_from_current_page lottery_type)).flatten).find?
          (fun x => x.id == r.id) = some r) ∧
    (∀ r ∈ (pages.map (get_lotteries_from_current_page lottery_type)).flatten,
      ∃ q ∈ get_lottery_ids lottery_type pages, q.id = r.id) := by
  have he : get_lottery_ids lottery_type pages =
      (addNewLotteries
        ((pages.map (get_lotteries_from_current_page lottery_type)).flatten) []).1 :=
    collectPages_eq lottery_type pages []
  refine ⟨?_, ?_, ?_, ?_⟩
  · rw [he]
    exact (addNew_nodup _ _).1
  · rw [he]
    exact addNew_sublist _ _
  · rw [he]
    intro r hr
    exact (addNew_find _ _ r hr).2
  · rw [he]
    intro r hr
    rcases addNew_complete _ [] r hr with hs | hq
    · exact absurd hs (List.not_mem_nil _)
    · exact hq

/-- Witness for C3: two pages sharing card 222; the collector output has
no duplicate ids and keeps the first occurrence of 222. -/
theorem C3_collector_dedup_witness :
    ((get_lottery_ids "rental" pagesEx).map LotteryInfo.id).Nodup ∧
    ((pagesEx.map (get_lotteries_from_current_page "rental")).flatten).find?
        (fun x => x.id == recB.id) = some recB := by
  refine ⟨(C3_collector_dedup "rental" pagesEx).1, ?_⟩
  exact (C3_collector_dedup "rental" pagesEx).2.2.1 recB (by decide)

/-- C5 (confirmed): a card whose parse yields no record contributes nothing
to the page scan while the remaining cards are still scanned; any exception
of the parse body is caught and yields no record; a card with no image
element, or whose image source lacks the `/photos/<digits>.` segment, yields
no record. -/
theorem C5_card_parse_isolation (lottery_type : String) :
    (∀ (pre : List Card) (c : Card) (post : List Card),
        parse_lottery_card lottery_type c = none →
        get_lotteries_from_current_page lottery_type (pre ++ c :: post) =
          get_lotteries_from_current_page lottery_type pre ++
            get_lotteries_from_current_page lottery_type post) ∧
    (∀ c : Card, parseCardBody lottery_type c = .error () →
        parse_lottery_card lottery_type c = none) ∧
    (∀ c : Card, c.img = .ok none → parse_lottery_card lottery_type c = none) ∧
    (∀ (c : Card) (src : String), c.img = .ok (some (.ok (some src))) →
        photosId src = none → parse_lottery_card lottery_type c = none) := by
  refine ⟨?_, ?_, ?_, ?_⟩
  · intro pre c post hc
    simp [get_lotteries_from_current_page, List.filterMap_append,
      List.filterMap_cons, hc]
  · intro c hc
    unfold parse_lottery_card
    rw [hc]
  · intro c himg
    cases hp : parse_lottery_card lottery_type c with
    | none => rfl
    | some r =>
      obtain ⟨lid, ttl, loc, un, dy, ap, h1, -⟩ := parse_some_fields hp
      rw [himg] at h1
      simp [extractId] at h1
  · intro c src himg hph
    cases hp : parse_lottery_card lottery_type c with
    | none => rfl
    | some r =>
      obtain ⟨lid, ttl, loc, un, dy, ap, h1, -⟩ := parse_some_fields hp
      rw [himg] at h1
      simp [extractId, hph] at h1

/-- Witness for C5: a card with no image yields no record, and dropping it
leaves the scan of the surrounding cards unchanged. -/
theorem C5_card_parse_isolation_witness :
    parse_lottery_card "rental" cardNoImg = none ∧
    get_lotteries_from_current_page "rental" [cardA, cardNoImg, cardB] =
      get_lotteries_from_current_page "rental" [cardA] ++
        get_lotteries_from_current_page "rental" [cardB] := by
  have h1 : parse_lottery_card "rental" cardNoImg = none :=
    (C5_card_parse_isolation "rental").2.2.1 cardNoImg rfl
  exact ⟨h1, (C5_card_parse_isolation "rental").1 [cardA] cardNoImg [cardB] h1⟩

/-- C10 (corrected): when a card's title element is absent, the Card
Extractor's record has title `"Unknown"` — with no index suffix; when the
title element is present with text `t`, the title is the stripped `t`. The
`"Unknown_<index>"` placeholder belongs to the Batch Orchestrator's card
summarization (`apply_all_sales.main`), not to `_parse_lottery_card`. -/
theorem C10_title_fallback (lottery_type : String) (c : Card) (r : LotteryInfo)
    (h : parse_lottery_card lottery_type c = some r) :
    (c.titleEl = .ok none → r.title = "Unknown") ∧
    (∀ t, c.titleEl = .ok (some (.ok (some t))) → r.title = pyStrip t) ∧
    (∀ (i : Nat) (cv : CardView), cv.titleText = none →
      summarizeCard i cv = .ok ⟨i, "Unknown_" ++ toString i, cardApplied cv⟩) := by
  obtain ⟨lid, ttl, loc, un, dy, ap, h1, h2, h3, h4, h5, h6, hr⟩ := parse_some_fields h
  subst hr
  refine ⟨?_, ?_, ?_⟩
  · intro hte
    rw [hte] at h2
    simp only [extractTitle, Except.ok.injEq] at h2
    show ttl = "Unknown"
    exact h2.symm
  · intro t hte
    rw [hte] at h2
    simp only [extractTitle, Except.ok.injEq] at h2
    show ttl = pyStrip t
    exact h2.symm
  · intro i cv hcv
    simp [summarizeCard, hcv]

/-- Witness for C10: the concrete card with no title element parses to a
record titled exactly `"Unknown"`. -/
theorem C10_title_fallback_witness : recNoTitle.title = "Unknown" :=
  (C10_title_fallback "rental" cardNoTitle recNoTitle (by decide)).1 rfl

/-- Counterexample to C10 as stated: the record of a card at ordinal 0 with
no title element has title `"Unknown"`, not `"Unknown_0"`. -/
theorem C10_counterexample :
    parse_lottery_card "rental" cardNoTitle = some recNoTitle ∧
    recNoTitle.title = "Unknown" ∧
    recNoTitle.title ≠ "Unknown_0" := by decide

/-- C6 (corrected): `login` returns failure without performing any driver
action whenever the username or the password is absent (unset or empty);
when the initial navigation succeeds, no exception escapes the method — every
later failure becomes the boolean `False` — and on the full submit path the
returned boolean is true iff the final location contains the base application
path and not the identity-provider login path. (The "never raises" part of
the original claim fails: `page.goto(BASE_URL)` runs before the `try` block,
so its exception escapes.) -/
theorem C6_login_contract (username password : Option String) (w : LoginWorld) :
    ((pyFalsy username = true ∨ pyFalsy password = true) →
      login username password w = (.returned false, [])) ∧
    (¬(pyFalsy username = true ∨ pyFalsy password = true) → w.gotoBase = .ok () →
      (login username password w).1 ≠ .raised) ∧
    (¬(pyFalsy username = true ∨ pyFalsy password = true) → w.gotoBase = .ok () →
      w.loginLink = .ok true → w.clickLoginLink = .ok () → w.waitEmail = .ok true →
      w.queryPassword = .ok true → w.fillEmail = .ok () → w.fillPassword = .ok () →
      ((w.querySubmit = .ok true ∧ w.clickSubmit = .ok ()) ∨
       (w.querySubmit = .ok false ∧ w.pressEnter = .ok ())) →
      (login username password w).1 = .returned (loginUrlOk w.finalUrl)) := by
  refine ⟨?_, ?_, ?_⟩
  · intro h
    simp only [login, if_pos h]
  · intro h hg
    simp only [login, if_neg h, hg]
    exact loginTryBody_not_raised w _
  · intro h hg h1 h2 h3 h4 h5 h6 hsub
    simp only [login, if_neg h, hg]
    rcases hsub with ⟨hq, hc⟩ | ⟨hq, hc⟩ <;>
      simp [loginTryBody, h1, h2, h3, h4, h5, h6, hq, hc]

/-- Witness for C6: concrete worlds exercising the missing-credential branch
and the full successful path. -/
theorem C6_login_contract_witness :
    login none (some "pass") wLoginOk = (.returned false, []) ∧
    (login (some "user") (some "pass") wLoginOk).1 ≠ .raised ∧
    (login (some "user") (some "pass") wLoginOk).1 = .returned true := by
  refine ⟨(C6_login_contract none (some "pass") wLoginOk).1 (Or.inl (by decide)),
    (C6_login_contract (some "user") (some "pass") wLoginOk).2.1 (by decide) rfl, ?_⟩
  have h := (C6_login_contract (some "user") (some "pass") wLoginOk).2.2
    (by decide) rfl rfl rfl rfl rfl rfl rfl (Or.inl ⟨rfl, rfl⟩)
  have h2 : loginUrlOk wLoginOk.finalUrl = true := by decide
  rw [h2] at h
  exact h

/-- Counterexample to C6 as stated: with credentials present but the initial
`page.goto` raising, the exception escapes `login` — the method does not
convert this failure into a boolean result. -/
theorem C6_counterexample :
    (login (some "user") (some "pass") wLoginBad).1 = .raised ∧
    (login (some "user") (some "pass") wLoginBad).2 = [LoginAction.gotoBase] := by
  decide

/-- C7 (confirmed): on the already-navigated list view, applying to a card
index at or past the number of cards returns a terminal failure outcome with
success false, already_applied false, eligible true and a message naming the
index, having performed no driver action — in particular no detail view was
opened. -/
theorem C7_index_out_of_range (annualIncome : Int) (cardIndex : Nat)
    (w : ApplyWorld) (hurl : w.urlHasSearchLotteries = true)
    (h : w.cards.length ≤ cardIndex) :
    apply_to_lottery_by_click annualIncome cardIndex w =
      .ok ({ success := false,
             message := "Card index " ++ toString cardIndex ++ " out of range",
             already_applied := false, eligible := true, title := "Unknown" }, []) ∧
    (∀ res acts, apply_to_lottery_by_click annualIncome cardIndex w = .ok (res, acts) →
      ApplyAction.clickViewDetails ∉ acts) := by
  have h1 : apply_to_lottery_by_click annualIncome cardIndex w =
      .ok ({ success := false,
             message := "Card index " ++ toString cardIndex ++ " out of range",
             already_applied := false, eligible := true, title := "Unknown" }, []) := by
    unfold apply_to_lottery_by_click applyLocate
    simp only [hurl, if_true]
    rw [dif_neg (Nat.not_lt.mpr h)]
    simp [initialResult]
  refine ⟨h1, ?_⟩
  intro res acts hra
  rw [h1] at hra
  simp only [Except.ok.injEq, Prod.mk.injEq] at hra
  obtain ⟨-, rfl⟩ := hra
  simp

/-- Witness for C7: index 5 on the one-card list view of `wEx`. -/
theorem C7_index_out_of_range_witness :
    apply_to_lottery_by_click 50000 5 wEx =
      .ok ({ success := false, message := "Card index 5 out of range",
             already_applied := false, eligible := true, title := "Unknown" }, []) := by
  have h := (C7_index_out_of_range 50000 5 wEx rfl (by decide)).1
  exact h.trans (by decide)

/-- C1 (confirmed): once the workflow reaches the eligibility check (card
located, title read, not applied on card or detail page), then: when the
income pattern yields both bounds and the configured annual income lies
outside `[min, max]`, the workflow returns a terminal outcome with
eligible false, success false, already_applied false and the message citing
both bounds; when the income lies inside the closed interval, or the pattern
is absent from the body text, the workflow proceeds to the SUBMIT phase, and
every outcome of that phase keeps eligible true (the check fails open). -/
theorem C1_eligibility_check (annualIncome : Int) (cardIndex : Nat)
    (w : ApplyWorld) (hurl : w.urlHasSearchLotteries = true)
    (hlt : cardIndex < w.cards.length)
    (htitle : (w.cards.get ⟨cardIndex, hlt⟩).titleText ≠ some none)
    (hcard : cardApplied (w.cards.get ⟨cardIndex, hlt⟩) = false)
    (hview : (w.cards.get ⟨cardIndex, hlt⟩).viewDetailsBtn = true)
    (hdet : detailApplied w = false) :
    (∀ mn mx, parse_income_range w.detailBodyTextB = .ok (some mn, some mx) →
      ((¬((mn : Int) ≤ annualIncome ∧ annualIncome ≤ (mx : Int))) →
        apply_to_lottery_by_click annualIncome cardIndex w =
          .ok ({ success := false,
                 message := notEligibleMsg annualIncome mn mx,
                 already_applied := false, eligible := false,
                 title := titleOfCard (w.cards.get ⟨cardIndex, hlt⟩) },
               [ApplyAction.hoverCard, ApplyAction.clickViewDetails] ++
                 detailLoadActs w) ∧
        pyIn (pyCommaNat mn) (notEligibleMsg annualIncome mn mx) = true ∧
        pyIn (pyCommaNat mx) (notEligibleMsg annualIncome mn mx) = true) ∧
      (((mn : Int) ≤ annualIncome ∧ annualIncome ≤ (mx : Int)) →
        apply_to_lottery_by_click annualIncome cardIndex w =
          submitPhase w (initialResult (titleOfCard (w.cards.get ⟨cardIndex, hlt⟩)))
            ([ApplyAction.hoverCard, ApplyAction.clickViewDetails] ++
              detailLoadActs w))) ∧
    (parse_income_range w.detailBodyTextB = .ok (none, none) →
      apply_to_lottery_by_click annualIncome cardIndex w =
        submitPhase w (initialResult (titleOfCard (w.cards.get ⟨cardIndex, hlt⟩)))
          ([ApplyAction.hoverCard, ApplyAction.clickViewDetails] ++
            detailLoadActs w)) ∧
    (∀ res acts,
      submitPhase w (initialResult (titleOfCard (w.cards.get ⟨cardIndex, hlt⟩)))
        ([ApplyAction.hoverCard, ApplyAction.clickViewDetails] ++
          detailLoadActs w) = .ok (res, acts) →
      res.eligible = true) := by
  have hbase : apply_to_lottery_by_click annualIncome cardIndex w =
      applyWithTitle annualIncome w (w.cards.get ⟨cardIndex, hlt⟩)
        (titleOfCard (w.cards.get ⟨cardIndex, hlt⟩)) [] := by
    unfold apply_to_lottery_by_click applyLocate
    simp only [hurl, if_true]
    rw [dif_pos hlt, if_neg htitle]
  refine ⟨?_, ?_, ?_⟩
  · intro mn mx hp
    constructor
    · intro hne
      refine ⟨?_, notEligibleMsg_cites_min _ _ _, notEligibleMsg_cites_max _ _ _⟩
      rw [hbase]
      simp only [applyWithTitle, hcard, hview, hdet, hp, Bool.false_eq_true,
        if_false, not_true, Bool.true_eq_false]
      rw [if_pos hne]
      simp [initialResult]
    · intro hin
      rw [hbase]
      simp only [applyWithTitle, hcard, hview, hdet, hp, Bool.false_eq_true,
        if_false, not_true, Bool.true_eq_false]
      rw [if_neg (not_not_intro hin)]
      simp
  · intro hp
    rw [hbase]
    simp only [applyWithTitle, hcard, hview, hdet, hp, Bool.false_eq_true,
      if_false, not_true, Bool.true_eq_false]
    simp
  · intro res acts hs
    have hf := (submitPhase_fields hs).1
    rw [hf]
    rfl

/-- Witness for C1: the spec's own numbers — income 20000 against range
`[32195, 226800]` is rejected with the message citing both bounds; income
60000 against the same range keeps eligibility true. -/
theorem C1_eligibility_check_witness :
    apply_to_lottery_by_click 20000 0 wEx =
      .ok ({ success := false,
             message := "Not eligible: $20,000 outside $32,195 - $226,800",
             already_applied := false, eligible := false, title := "Some Lottery" },
           [ApplyAction.hoverCard, ApplyAction.clickViewDetails]) ∧
    (∀ res acts, apply_to_lottery_by_click 60000 0 wEx = .ok (res, acts) →
      res.eligible = true) := by
  have h20 := C1_eligibility_check 20000 0 wEx rfl (by decide) (by decide)
    (by decide) (by decide) (by decide)
  have h60 := C1_eligibility_check 60000 0 wEx rfl (by decide) (by decide)
    (by decide) (by decide) (by decide)
  constructor
  · have h := (h20.1 32195 226800 (by decide)).1 (by decide)
    exact h.1.trans (by decide)
  · intro res acts hra
    have heq := (h60.1 32195 226800 (by decide)).2 (by decide)
    rw [heq] at hra
    exact h60.2.2 res acts hra

theorem submitPhase_wf {w : ApplyWorld} {title : String}
    {pre acts : List ApplyAction} {res : ApplyResult}
    (h : submitPhase w (initialResult title) pre = .ok (res, acts)) :
    ¬(res.success = true ∧ res.already_applied = true) ∧
    ¬(res.success = true ∧ res.eligible = false) ∧
    ¬(res.already_applied = true ∧ res.eligible = false) ∧
    res.message ≠ "" := by
  rcases submitPhase_shape h with rfl | rfl | rfl | rfl <;>
    exact ⟨by simp [initialResult], by simp [initialResult],
      by simp [initialResult], by simp [initialResult]⟩

theorem applyWithTitle_wf {annualIncome : Int} {w : ApplyWorld} {card : CardView}
    {title : String} {pre acts : List ApplyAction} {res : ApplyResult}
    (h : applyWithTitle annualIncome w card title pre = .ok (res, acts)) :
    ¬(res.success = true ∧ res.already_applied = true) ∧
    ¬(res.success = true ∧ res.eligible = false) ∧
    ¬(res.already_applied = true ∧ res.eligible = false) ∧
    res.message ≠ "" := by
  simp only [applyWithTitle] at h
  split at h
  · simp only [Except.ok.injEq, Prod.mk.injEq] at h
    obtain ⟨rfl, -⟩ := h
    exact ⟨by simp [initialResult], by simp [initialResult],
      by simp [initialResult], by simp [initialResult]⟩
  · split at h
    · simp only [Except.ok.injEq, Prod.mk.injEq] at h
      obtain ⟨rfl, -⟩ := h
      exact ⟨by simp [initialResult], by simp [initialResult],
        by simp [initialResult], by simp [initialResult]⟩
    · split at h
      · simp only [Except.ok.injEq, Prod.mk.injEq] at h
        obtain ⟨rfl, -⟩ := h
        exact ⟨by simp [initialResult], by simp [initialResult],
          by simp [initialResult], by simp [initialResult]⟩
      · split at h
        · exact absurd h (by simp)
        · split at h
          · simp only [Except.ok.injEq, Prod.mk.injEq] at h
            obtain ⟨rfl, -⟩ := h
            exact ⟨by simp [initialResult], by simp [initialResult],
              by simp [initialResult], notEligibleMsg_ne_empty _ _ _⟩
          · exact submitPhase_wf h
        · exact submitPhase_wf h

theorem applyLocate_wf {annualIncome : Int} {cardIndex : Nat} {w : ApplyWorld}
    {pre acts : List ApplyAction} {res : ApplyResult}
    (h : applyLocate annualIncome cardIndex w pre = .ok (res, acts)) :
    ¬(res.success = true ∧ res.already_applied = true) ∧
    ¬(res.success = true ∧ res.eligible = false) ∧
    ¬(res.already_applied = true ∧ res.eligible = false) ∧
    res.message ≠ "" := by
  simp only [applyLocate] at h
  split at h
  · split at h
    · exact absurd h (by simp)
    · exact applyWithTitle_wf h
  · simp only [Except.ok.injEq, Prod.mk.injEq] at h
    obtain ⟨rfl, -⟩ := h
    exact ⟨by simp [initialResult], by simp [initialResult],
      by simp [initialResult], card_index_msg_ne_empty cardIndex⟩

/-- C9 (corrected): every outcome `apply_to_lottery_by_click` returns has AT
MOST one of the three terminal reasons true — success, already_applied, or
eligible false — never more than one, and its message is always non-empty.
(The "never none" part of the original claim fails: failure outcomes such as
an out-of-range index have none of the three reasons true.) -/
theorem C9_outcome_shape (annualIncome : Int) (cardIndex : Nat) (w : ApplyWorld)
    (res : ApplyResult) (acts : List ApplyAction)
    (h : apply_to_lottery_by_click annualIncome cardIndex w = .ok (res, acts)) :
    ¬(res.success = true ∧ res.already_applied = true) ∧
    ¬(res.success = true ∧ res.eligible = false) ∧
    ¬(res.already_applied = true ∧ res.eligible = false) ∧
    res.message ≠ "" := by
  simp only [apply_to_lottery_by_click] at h
  split at h
  · exact applyLocate_wf h
  · split at h
    · exact absurd h (by simp)
    · exact applyLocate_wf h

/-- Witness for C9: the concrete outcome of `wEx` at income 60000. -/
theorem C9_outcome_shape_witness :
    ¬(resNoApplyBtn.success = true ∧ resNoApplyBtn.already_applied = true) ∧
    ¬(resNoApplyBtn.success = true ∧ resNoApplyBtn.eligible = false) ∧
    ¬(resNoApplyBtn.already_applied = true ∧ resNoApplyBtn.eligible = false) ∧
    resNoApplyBtn.message ≠ "" :=
  C9_outcome_shape 60000 0 wEx resNoApplyBtn
    [ApplyAction.hoverCard, ApplyAction.clickViewDetails] (by decide)

/-- Counterexample to C9 as stated: the out-of-range outcome is produced by
the workflow yet has none of the three terminal reasons true. -/
theorem C9_counterexample :
    apply_to_lottery_by_click 50000 0 { wEx with cards := [] } =
      .ok (resOutOfRange, []) ∧
    ¬(resOutOfRange.success = true ∨ resOutOfRange.already_applied = true ∨
      resOutOfRange.eligible = false) := by decide

/-- C8 (corrected): the Batch Orchestrator's title-based deduplication
guarantees that no two recorded outcomes share a title PROVIDED each
Application Workflow invocation reports the title of the card summarized at
that page and index (no index shift between summarization and invocation,
for the non-applied cards actually processed). Without that proviso the
guarantee fails, because the outcome records whatever title sits at the
re-located position. -/
theorem C8_batch_title_dedup (applyRes : Nat → Nat → ApplyResult)
    (pages : List (List CardView)) (outs : List ApplyResult)
    (H : ∀ k : Fin pages.length, ∀ d ∈ pageSummaries (pages.get k),
        d.is_applied = false → (applyRes (1 + k.val) d.index).title = d.title)
    (h : applyAllSalesMain applyRes pages = .ok outs) :
    (outs.map ApplyResult.title).Nodup := by
  unfold applyAllSalesMain at h
  rcases hr : runPages applyRes pages 1 [] with e | p
  · rw [hr] at h
    exact absurd h (by simp [Except.map])
  · rw [hr] at h
    simp only [Except.map, Except.ok.injEq] at h
    obtain ⟨hn, -, -⟩ :=
      runPages_props applyRes pages 1 [] p.1 p.2 H hr
    rw [← h]
    exact hn

/-- Witness for C8: the spec's end-to-end scenario (2 pages; 3 cards on page
1 of which one is already applied; 2 new cards on page 2) yields exactly 5
outcomes — 1 already-applied and 4 apply attempts — with distinct titles. -/
theorem C8_batch_title_dedup_witness :
    applyAllSalesMain applyResC8 pagesC8 = .ok outsC8 ∧
    outsC8.length = 5 ∧
    (outsC8.map ApplyResult.title).Nodup :=
  ⟨by decide, by decide,
    C8_batch_title_dedup applyResC8 pagesC8 outsC8 (by decide) (by decide)⟩

/-- Counterexample to C8 as stated: when the grid shifts so that both
invocations report the same card, the run records two outcomes with the same
title despite the title-based deduplication. -/
theorem C8_counterexample :
    applyAllSalesMain applyResShifted pagesShifted =
      .ok [applyResShifted 1 0, applyResShifted 1 1] ∧
    ¬(([applyResShifted 1 0, applyResShifted 1 1].map ApplyResult.title).Nodup) := by
  decide

end HousingConnect
